import Mathlib

/-!
Verification of the core of `src/batalhaNaval.c` (a 10×10 battleship game):
grid model, ship placement, attack-pattern generation, attack application and
fleet tracking.  Every definition below is a shallow embedding of the
corresponding C function; C `int` values are modelled as `Int`, the board
(`int tabuleiro[10][10]`) as a total function `Int → Int → Int` whose cells
outside the validated range are never read or written by the embedded code,
and the 5×5 ability matrices as `Nat → Nat → Int`.
-/

set_option autoImplicit false

namespace BatalhaNaval

/-! ### Constants (`#define`s of the source)

The C macro names are upper-case with underscores; here they are rendered in
camel case (`POSICAO_NAVIO` ↦ `posicaoNavio`, etc.).
-/

def tamanhoTabuleiro : Int := 10
def tamanhoHabilidade : Nat := 5

def posicaoVazia : Int := 0
def posicaoNavio : Int := 3
def posicaoAtingida : Int := 2
def posicaoAguaAtingida : Int := 1

def areaNaoAfetada : Int := 0
def areaAfetada : Int := 1

def sucesso : Int := 1
def erroPosicaoOcupada : Int := -1
def erroForaLimites : Int := -2

/-! ### Data structures -/

/-- `Coordenada`: a board coordinate (C struct with two `int` fields). -/
structure Coordenada where
  linha : Int
  coluna : Int
deriving DecidableEq

/-- `Navio`: a ship record.  `foiDestruido` is an `int` used as a boolean in
the C source, modelled as `Bool`; `tamanho` is always non-negative in the
program, modelled as `Nat`. -/
structure Navio where
  inicio : Coordenada
  tamanho : Nat
  orientacao : Char
  id : Int
  foiDestruido : Bool
deriving DecidableEq

/-- `EstatisticasJogo`: the four game counters. -/
structure EstatisticasJogo where
  naviosDestruidos : Int
  totalTiros : Int
  acertos : Int
  erros : Int
deriving DecidableEq

/-- The board `int tabuleiro[10][10]`, as a total store of `int` values. -/
abbrev Tabuleiro : Type := Int → Int → Int

/-- A 5×5 ability matrix `int matriz[5][5]`. -/
abbrev Habilidade : Type := Nat → Nat → Int

/-- A single array store `tabuleiro[l][c] = v`. -/
def escreverCelula (t : Tabuleiro) (l c v : Int) : Tabuleiro :=
  fun l2 c2 => if l2 = l ∧ c2 = c then v else t l2 c2

/-! ### Initialization -/

/-- `inicializarTabuleiro`: `memset` of the whole board with `POSICAO_VAZIA`. -/
def inicializarTabuleiro : Tabuleiro := fun _ _ => posicaoVazia

/-- `inicializarMatrizHabilidade`: `memset` of the 5×5 matrix with
`AREA_NAO_AFETADA`; the previous contents of the buffer are discarded. -/
def inicializarMatrizHabilidade (_ : Habilidade) : Habilidade :=
  fun _ _ => areaNaoAfetada

/-- `inicializarEstatisticas`: all four counters set to zero. -/
def inicializarEstatisticas : EstatisticasJogo :=
  { naviosDestruidos := 0, totalTiros := 0, acertos := 0, erros := 0 }

/-! ### Validation helpers -/

/-- `coordenadaValida`: `0 <= linha < 10 && 0 <= coluna < 10`. -/
def coordenadaValida (linha coluna : Int) : Bool :=
  decide (0 ≤ linha) && decide (linha < tamanhoTabuleiro) &&
  decide (0 ≤ coluna) && decide (coluna < tamanhoTabuleiro)

/-- `posicaoDisponivel`: in bounds and currently `POSICAO_VAZIA`. -/
def posicaoDisponivel (t : Tabuleiro) (linha coluna : Int) : Bool :=
  coordenadaValida linha coluna && decide (t linha coluna = posicaoVazia)

/-! ### Ship placement -/

/-- `proximaCoordenada`: step one cell in the ship's direction; an orientation
outside `{H, V, D}` falls into the `default:` branch and does not move. -/
def proximaCoordenada (coord : Coordenada) (orientacao : Char) : Coordenada :=
  if orientacao = 'H' then { coord with coluna := coord.coluna + 1 }
  else if orientacao = 'V' then { coord with linha := coord.linha + 1 }
  else if orientacao = 'D' then
    { linha := coord.linha + 1, coluna := coord.coluna + 1 }
  else coord

/-- The derived coordinate sequence of a ship: `coordSeq c o k` is the value
of the C loop variable `coord` after `k` calls of `proximaCoordenada`. -/
def coordSeq (coord : Coordenada) (orientacao : Char) : Nat → Coordenada
  | 0 => coord
  | k + 1 => proximaCoordenada (coordSeq coord orientacao k) orientacao

/-- First validation pass of `posicionarNavio`: walk the `tamanho` derived
coordinates; at the first unavailable one return the error the C code
returns there (`ERRO_FORA_LIMITES` when out of bounds, otherwise
`ERRO_POSICAO_OCUPADA`); return `none` when every coordinate is available. -/
def primeiraFalha (t : Tabuleiro) (coord : Coordenada) (orientacao : Char) :
    Nat → Option Int
  | 0 => none
  | n + 1 =>
    if posicaoDisponivel t coord.linha coord.coluna then
      primeiraFalha t (proximaCoordenada coord orientacao) orientacao n
    else if coordenadaValida coord.linha coord.coluna then
      some erroPosicaoOcupada
    else
      some erroForaLimites

/-- Second pass of `posicionarNavio`: write `POSICAO_NAVIO` at the `n`
derived coordinates. -/
def escreverNavio (t : Tabuleiro) (coord : Coordenada) (orientacao : Char) :
    Nat → Tabuleiro
  | 0 => t
  | n + 1 =>
    escreverNavio (escreverCelula t coord.linha coord.coluna posicaoNavio)
      (proximaCoordenada coord orientacao) orientacao n

/-- `posicionarNavio`: validate every derived coordinate first and only then
commit the writes; on failure the board is returned untouched together with
the error code. -/
def posicionarNavio (t : Tabuleiro) (navio : Navio) : Int × Tabuleiro :=
  match primeiraFalha t navio.inicio navio.orientacao navio.tamanho with
  | some erro => (erro, t)
  | none => (sucesso, escreverNavio t navio.inicio navio.orientacao navio.tamanho)

/-! ### Ability patterns -/

/-- One store `matriz[p.1][p.2] = AREA_AFETADA`. -/
def marcarArea (m : Habilidade) (p : Nat × Nat) : Habilidade :=
  fun i j => if i = p.1 ∧ j = p.2 then areaAfetada else m i j

/-- The `padrao` array of `criarHabilidadeCone`. -/
def padraoCone : List (Nat × Nat) :=
  [(0, 2), (1, 1), (1, 2), (1, 3), (2, 0), (2, 1), (2, 2), (2, 3), (2, 4)]

/-- The `padrao` array of `criarHabilidadeOctaedro`. -/
def padraoOctaedro : List (Nat × Nat) :=
  [(0, 2), (1, 1), (1, 2), (1, 3), (2, 2)]

/-- The cells set by the first (vertical) loop of `criarHabilidadeCruz`. -/
def colunaCentralCruz : List (Nat × Nat) :=
  (List.range tamanhoHabilidade).map fun i => (i, tamanhoHabilidade / 2)

/-- The cells set by the second (horizontal) loop of `criarHabilidadeCruz`. -/
def linhaCentralCruz : List (Nat × Nat) :=
  (List.range tamanhoHabilidade).map fun j => (tamanhoHabilidade / 2, j)

/-- `criarHabilidadeCone`: zero the buffer, then mark the cone pattern. -/
def criarHabilidadeCone (matriz : Habilidade) : Habilidade :=
  padraoCone.foldl marcarArea (inicializarMatrizHabilidade matriz)

/-- `criarHabilidadeCruz`: zero the buffer, then mark the central column and
the central row. -/
def criarHabilidadeCruz (matriz : Habilidade) : Habilidade :=
  linhaCentralCruz.foldl marcarArea
    (colunaCentralCruz.foldl marcarArea (inicializarMatrizHabilidade matriz))

/-- `criarHabilidadeOctaedro`: zero the buffer, then mark the diamond. -/
def criarHabilidadeOctaedro (matriz : Habilidade) : Habilidade :=
  padraoOctaedro.foldl marcarArea (inicializarMatrizHabilidade matriz)

/-! ### Fleet tracking -/

/-- The `partesAtingidas` counter of `verificarNaviosDestruidos`: how many of
the `n` derived coordinates are in bounds and show `POSICAO_ATINGIDA`. -/
def partesAtingidas (t : Tabuleiro) (coord : Coordenada) (orientacao : Char) :
    Nat → Nat
  | 0 => 0
  | n + 1 =>
    (if coordenadaValida coord.linha coord.coluna ∧
        t coord.linha coord.coluna = posicaoAtingida then 1 else 0) +
    partesAtingidas t (proximaCoordenada coord orientacao) orientacao n

/-- The per-ship loop body of `verificarNaviosDestruidos`, threaded over the
ship list in order. -/
def verificarLoop (t : Tabuleiro) :
    List Navio → EstatisticasJogo → List Navio × EstatisticasJogo
  | [], stats => ([], stats)
  | navio :: resto, stats =>
    if navio.foiDestruido then
      let r := verificarLoop t resto stats
      (navio :: r.1, r.2)
    else if partesAtingidas t navio.inicio navio.orientacao navio.tamanho
        = navio.tamanho then
      let r := verificarLoop t resto
        { stats with naviosDestruidos := stats.naviosDestruidos + 1 }
      ({ navio with foiDestruido := true } :: r.1, r.2)
    else
      let r := verificarLoop t resto stats
      (navio :: r.1, r.2)

/-- `verificarNaviosDestruidos`: the C function reads the board but never
writes it, so the embedding returns the board unchanged next to the updated
ship list and statistics. -/
def verificarNaviosDestruidos (t : Tabuleiro) (navios : List Navio)
    (stats : EstatisticasJogo) : Tabuleiro × List Navio × EstatisticasJogo :=
  (t, verificarLoop t navios stats)

/-! ### Attack application -/

/-- The per-attack accumulator of `aplicarHabilidadeNoTabuleiro`:
the board plus the local counters `acertosNesteTiro` and `tirosNesteTurno`. -/
structure ResultadoCelulas where
  tabuleiro : Tabuleiro
  acertos : Int
  tiros : Int

/-- Row-major enumeration of the 5×5 pattern cells, matching the two nested
`for` loops of `aplicarHabilidadeNoTabuleiro`. -/
def celulasHabilidade : List (Nat × Nat) :=
  (List.range tamanhoHabilidade).flatMap fun i =>
    (List.range tamanhoHabilidade).map fun j => (i, j)

/-- Absolute row of local pattern row `i`: `centroLinha - deslocamento + i`. -/
def linhaAbsoluta (centroLinha : Int) (i : Nat) : Int :=
  centroLinha - (tamanhoHabilidade / 2 : Nat) + i

/-- Absolute column of local pattern column `j`. -/
def colunaAbsoluta (centroColuna : Int) (j : Nat) : Int :=
  centroColuna - (tamanhoHabilidade / 2 : Nat) + j

/-- Body of the inner loop of `aplicarHabilidadeNoTabuleiro` for one local
cell `ij`: on an affected, in-bounds cell the shot counter is incremented and
the board cell is classified (`POSICAO_NAVIO` → hit, `POSICAO_VAZIA` → water,
anything else → message only, no change). -/
def aplicarCelula (habilidade : Habilidade) (centroLinha centroColuna : Int)
    (st : ResultadoCelulas) (ij : Nat × Nat) : ResultadoCelulas :=
  if habilidade ij.1 ij.2 = areaAfetada then
    if coordenadaValida (linhaAbsoluta centroLinha ij.1)
        (colunaAbsoluta centroColuna ij.2) then
      if st.tabuleiro (linhaAbsoluta centroLinha ij.1)
          (colunaAbsoluta centroColuna ij.2) = posicaoNavio then
        { tabuleiro := escreverCelula st.tabuleiro (linhaAbsoluta centroLinha ij.1)
            (colunaAbsoluta centroColuna ij.2) posicaoAtingida
          acertos := st.acertos + 1
          tiros := st.tiros + 1 }
      else if st.tabuleiro (linhaAbsoluta centroLinha ij.1)
          (colunaAbsoluta centroColuna ij.2) = posicaoVazia then
        { tabuleiro := escreverCelula st.tabuleiro (linhaAbsoluta centroLinha ij.1)
            (colunaAbsoluta centroColuna ij.2) posicaoAguaAtingida
          acertos := st.acertos
          tiros := st.tiros + 1 }
      else
        { st with tiros := st.tiros + 1 }
    else st
  else st

/-- The full double loop of `aplicarHabilidadeNoTabuleiro`, starting from the
incoming board and zeroed per-turn counters. -/
def loopCelulas (t : Tabuleiro) (habilidade : Habilidade)
    (centroLinha centroColuna : Int) : ResultadoCelulas :=
  celulasHabilidade.foldl (aplicarCelula habilidade centroLinha centroColuna)
    { tabuleiro := t, acertos := 0, tiros := 0 }

/-- The fleet re-scan step of `aplicarHabilidadeNoTabuleiro`:
`verificarNaviosDestruidos` runs exactly when `acertosNesteTiro > 0`. -/
def verificacaoPosAtaque (t : Tabuleiro) (habilidade : Habilidade)
    (centroLinha centroColuna : Int) (navios : List Navio)
    (stats : EstatisticasJogo) : List Navio × EstatisticasJogo :=
  if 0 < (loopCelulas t habilidade centroLinha centroColuna).acertos then
    (verificarNaviosDestruidos
      (loopCelulas t habilidade centroLinha centroColuna).tabuleiro
      navios stats).2
  else (navios, stats)

/-- `aplicarHabilidadeNoTabuleiro`: run the cell loop, re-scan the fleet when
at least one new hit occurred, then accumulate the per-turn counters
`tirosNesteTurno`, `acertosNesteTiro` and their difference into the
statistics. -/
def aplicarHabilidadeNoTabuleiro (t : Tabuleiro) (habilidade : Habilidade)
    (centroLinha centroColuna : Int) (navios : List Navio)
    (stats : EstatisticasJogo) : Tabuleiro × List Navio × EstatisticasJogo :=
  ((loopCelulas t habilidade centroLinha centroColuna).tabuleiro,
   (verificacaoPosAtaque t habilidade centroLinha centroColuna navios stats).1,
   { (verificacaoPosAtaque t habilidade centroLinha centroColuna navios stats).2 with
     totalTiros :=
       (verificacaoPosAtaque t habilidade centroLinha centroColuna navios stats).2.totalTiros
         + (loopCelulas t habilidade centroLinha centroColuna).tiros
     acertos :=
       (verificacaoPosAtaque t habilidade centroLinha centroColuna navios stats).2.acertos
         + (loopCelulas t habilidade centroLinha centroColuna).acertos
     erros :=
       (verificacaoPosAtaque t habilidade centroLinha centroColuna navios stats).2.erros
         + ((loopCelulas t habilidade centroLinha centroColuna).tiros
             - (loopCelulas t habilidade centroLinha centroColuna).acertos) })

/-! ### Specification-side predicates -/

/-- Pattern cell `ij` produces a counted shot: it is marked affected and its
absolute coordinate is on the board. -/
def celulaAtirada (habilidade : Habilidade) (centroLinha centroColuna : Int)
    (ij : Nat × Nat) : Bool :=
  decide (habilidade ij.1 ij.2 = areaAfetada) &&
  coordenadaValida (linhaAbsoluta centroLinha ij.1) (colunaAbsoluta centroColuna ij.2)

/-- A counted shot that lands on a cell currently holding `POSICAO_NAVIO`. -/
def celulaAcerto (t : Tabuleiro) (habilidade : Habilidade)
    (centroLinha centroColuna : Int) (ij : Nat × Nat) : Bool :=
  celulaAtirada habilidade centroLinha centroColuna ij &&
  decide (t (linhaAbsoluta centroLinha ij.1) (colunaAbsoluta centroColuna ij.2)
            = posicaoNavio)

/-- Pattern cell `ij` covers the absolute board cell `(l, c)`. -/
def cobreCelula (habilidade : Habilidade) (centroLinha centroColuna l c : Int)
    (ij : Nat × Nat) : Bool :=
  celulaAtirada habilidade centroLinha centroColuna ij &&
  decide (linhaAbsoluta centroLinha ij.1 = l) &&
  decide (colunaAbsoluta centroColuna ij.2 = c)

/-- The state transition an attack performs on one board value. -/
def transicaoTiro (v : Int) : Int :=
  if v = posicaoNavio then posicaoAtingida
  else if v = posicaoVazia then posicaoAguaAtingida
  else v

/-- Every derived coordinate of the ship is on the board and shows
`POSICAO_ATINGIDA`. -/
def navioAfundado (t : Tabuleiro) (navio : Navio) : Bool :=
  (List.range navio.tamanho).all fun k =>
    coordenadaValida (coordSeq navio.inicio navio.orientacao k).linha
      (coordSeq navio.inicio navio.orientacao k).coluna &&
    decide (t (coordSeq navio.inicio navio.orientacao k).linha
              (coordSeq navio.inicio navio.orientacao k).coluna = posicaoAtingida)

/-- What `verificarNaviosDestruidos` does to one ship record. -/
def marcarDestruido (t : Tabuleiro) (navio : Navio) : Navio :=
  if navio.foiDestruido = false ∧ navioAfundado t navio = true then
    { navio with foiDestruido := true }
  else navio

/-- The ship transitions to destroyed in this scan. -/
def novoDestruido (t : Tabuleiro) (navio : Navio) : Bool :=
  !navio.foiDestruido && navioAfundado t navio

/-- Concrete objects used by the concrete-scenario theorems below. -/
def tabuleiroVazio : Tabuleiro := inicializarTabuleiro

def mascaraInicial : Habilidade := fun _ _ => areaNaoAfetada

def habilidadeCruzPadrao : Habilidade := criarHabilidadeCruz mascaraInicial

/-! ### Basic lemmas -/

lemma coordenadaValida_iff {l c : Int} :
    coordenadaValida l c = true ↔ 0 ≤ l ∧ l < 10 ∧ 0 ≤ c ∧ c < 10 := by
  simp [coordenadaValida, tamanhoTabuleiro, and_assoc]

lemma coordSeq_shift (coord : Coordenada) (o : Char) (k : Nat) :
    coordSeq (proximaCoordenada coord o) o k = coordSeq coord o (k + 1) := by
  induction k with
  | zero => rfl
  | succ k ih => simp only [coordSeq, ih]

/-! ### Placement lemmas -/

lemma primeiraFalha_mem (t : Tabuleiro) (o : Char) :
    ∀ (n : Nat) (coord : Coordenada),
      primeiraFalha t coord o n = none ∨
      primeiraFalha t coord o n = some erroPosicaoOcupada ∨
      primeiraFalha t coord o n = some erroForaLimites := by
  intro n
  induction n with
  | zero => intro coord; left; rfl
  | succ n ih =>
    intro coord
    unfold primeiraFalha
    split
    · exact ih _
    · split
      · right; left; rfl
      · right; right; rfl

lemma primeiraFalha_none_iff (t : Tabuleiro) (o : Char) :
    ∀ (n : Nat) (coord : Coordenada),
      primeiraFalha t coord o n = none ↔
      ∀ k, k < n →
        posicaoDisponivel t (coordSeq coord o k).linha (coordSeq coord o k).coluna
          = true := by
  intro n
  induction n with
  | zero => intro coord; simp [primeiraFalha]
  | succ n ih =>
    intro coord
    unfold primeiraFalha
    by_cases h : posicaoDisponivel t coord.linha coord.coluna = true
    · rw [if_pos h, ih]
      constructor
      · intro hall k hk
        cases k with
        | zero => simpa [coordSeq] using h
        | succ k =>
          have hs := hall k (by omega)
          rwa [coordSeq_shift] at hs
      · intro hall k hk
        have hs := hall (k + 1) (by omega)
        rwa [← coordSeq_shift] at hs
    · rw [if_neg h]
      constructor
      · intro hc
        split at hc <;> simp at hc
      · intro hall
        exact absurd (by simpa [coordSeq] using hall 0 (by omega)) h

lemma primeiraFalha_first (t : Tabuleiro) (o : Char) :
    ∀ (n : Nat) (coord : Coordenada) (k : Nat), k < n →
      (∀ m, m < k →
        posicaoDisponivel t (coordSeq coord o m).linha (coordSeq coord o m).coluna
          = true) →
      posicaoDisponivel t (coordSeq coord o k).linha (coordSeq coord o k).coluna
          = false →
      primeiraFalha t coord o n =
        some (if coordenadaValida (coordSeq coord o k).linha
                  (coordSeq coord o k).coluna
              then erroPosicaoOcupada else erroForaLimites) := by
  intro n
  induction n with
  | zero => intro coord k hk; omega
  | succ n ih =>
    intro coord k hk hprev hfail
    cases k with
    | zero =>
      simp only [coordSeq] at hfail ⊢
      unfold primeiraFalha
      rw [if_neg (by simp [hfail])]
      by_cases hv : coordenadaValida coord.linha coord.coluna = true
      · rw [if_pos hv, if_pos hv]
      · rw [if_neg hv, if_neg hv]
    | succ k =>
      have h0 : posicaoDisponivel t coord.linha coord.coluna = true := by
        simpa [coordSeq] using hprev 0 (by omega)
      unfold primeiraFalha
      rw [if_pos h0]
      rw [show coordSeq coord o (k + 1) = coordSeq (proximaCoordenada coord o) o k
            from (coordSeq_shift coord o k).symm] at hfail ⊢
      exact ih (proximaCoordenada coord o) k (by omega)
        (fun m hm => by
          have hs := hprev (m + 1) (by omega)
          rwa [← coordSeq_shift] at hs)
        hfail

lemma escreverNavio_val (o : Char) :
    ∀ (n : Nat) (coord : Coordenada) (t : Tabuleiro) (l c : Int),
      escreverNavio t coord o n l c = t l c ∨
      escreverNavio t coord o n l c = posicaoNavio := by
  intro n
  induction n with
  | zero => intro coord t l c; left; rfl
  | succ n ih =>
    intro coord t l c
    unfold escreverNavio
    rcases ih (proximaCoordenada coord o)
        (escreverCelula t coord.linha coord.coluna posicaoNavio) l c with h | h
    · rw [h]
      unfold escreverCelula
      split
      · right; rfl
      · left; rfl
    · right; exact h

lemma escreverNavio_frame (o : Char) :
    ∀ (n : Nat) (coord : Coordenada) (t : Tabuleiro) (l c : Int),
      (∀ k, k < n →
        ¬((coordSeq coord o k).linha = l ∧ (coordSeq coord o k).coluna = c)) →
      escreverNavio t coord o n l c = t l c := by
  intro n
  induction n with
  | zero => intro coord t l c _; rfl
  | succ n ih =>
    intro coord t l c h
    unfold escreverNavio
    rw [ih (proximaCoordenada coord o) _ l c
          (fun k hk => by
            have hs := h (k + 1) (by omega)
            rwa [← coordSeq_shift] at hs)]
    unfold escreverCelula
    rw [if_neg (fun hc =>
      h 0 (by omega) (by simp only [coordSeq]; exact ⟨hc.1.symm, hc.2.symm⟩))]

lemma escreverNavio_mem (o : Char) :
    ∀ (n : Nat) (coord : Coordenada) (t : Tabuleiro) (k : Nat), k < n →
      escreverNavio t coord o n (coordSeq coord o k).linha
        (coordSeq coord o k).coluna = posicaoNavio := by
  intro n
  induction n with
  | zero => intro _ _ k hk; omega
  | succ n ih =>
    intro coord t k hk
    cases k with
    | zero =>
      simp only [coordSeq]
      unfold escreverNavio
      rcases escreverNavio_val o n (proximaCoordenada coord o)
          (escreverCelula t coord.linha coord.coluna posicaoNavio)
          coord.linha coord.coluna with h | h
      · rw [h]
        unfold escreverCelula
        rw [if_pos ⟨rfl, rfl⟩]
      · exact h
    | succ k =>
      rw [← coordSeq_shift]
      unfold escreverNavio
      exact ih _ _ k (by omega)

/-! ### Fleet-tracking lemmas -/

lemma partesAtingidas_le (t : Tabuleiro) (o : Char) :
    ∀ (n : Nat) (coord : Coordenada), partesAtingidas t coord o n ≤ n := by
  intro n
  induction n with
  | zero => intro coord; exact Nat.le_refl 0
  | succ n ih =>
    intro coord
    unfold partesAtingidas
    have h := ih (proximaCoordenada coord o)
    split <;> omega

lemma partesAtingidas_eq_iff (t : Tabuleiro) (o : Char) :
    ∀ (n : Nat) (coord : Coordenada),
      partesAtingidas t coord o n = n ↔
      ∀ k, k < n →
        coordenadaValida (coordSeq coord o k).linha (coordSeq coord o k).coluna
            = true ∧
        t (coordSeq coord o k).linha (coordSeq coord o k).coluna
            = posicaoAtingida := by
  intro n
  induction n with
  | zero => intro coord; simp [partesAtingidas]
  | succ n ih =>
    intro coord
    unfold partesAtingidas
    by_cases h0 : coordenadaValida coord.linha coord.coluna = true ∧
        t coord.linha coord.coluna = posicaoAtingida
    · rw [if_pos h0]
      constructor
      · intro heq k hk
        have hrest : partesAtingidas t (proximaCoordenada coord o) o n = n := by
          omega
        cases k with
        | zero => simpa [coordSeq] using h0
        | succ k =>
          have hs := (ih (proximaCoordenada coord o)).mp hrest k (by omega)
          rwa [coordSeq_shift] at hs
      · intro hall
        have hrest : partesAtingidas t (proximaCoordenada coord o) o n = n := by
          refine (ih _).mpr fun k hk => ?_
          have hs := hall (k + 1) (by omega)
          rwa [← coordSeq_shift] at hs
        omega
    · rw [if_neg h0]
      constructor
      · intro heq
        exfalso
        have hle := partesAtingidas_le t o n (proximaCoordenada coord o)
        omega
      · intro hall
        exact absurd (by simpa [coordSeq] using hall 0 (by omega)) h0

lemma navioAfundado_iff {t : Tabuleiro} {navio : Navio} :
    navioAfundado t navio = true ↔
    ∀ k, k < navio.tamanho →
      coordenadaValida (coordSeq navio.inicio navio.orientacao k).linha
          (coordSeq navio.inicio navio.orientacao k).coluna = true ∧
      t (coordSeq navio.inicio navio.orientacao k).linha
          (coordSeq navio.inicio navio.orientacao k).coluna = posicaoAtingida := by
  simp [navioAfundado, List.all_eq_true, List.mem_range]

lemma partesAtingidas_eq_tamanho_iff {t : Tabuleiro} {navio : Navio} :
    partesAtingidas t navio.inicio navio.orientacao navio.tamanho = navio.tamanho
      ↔ navioAfundado t navio = true := by
  rw [partesAtingidas_eq_iff, navioAfundado_iff]

lemma verificarLoop_spec (t : Tabuleiro) :
    ∀ (navios : List Navio) (stats : EstatisticasJogo),
      verificarLoop t navios stats =
        (navios.map (marcarDestruido t),
         { stats with
           naviosDestruidos :=
             stats.naviosDestruidos + navios.countP (novoDestruido t) }) := by
  intro navios
  induction navios with
  | nil => intro stats; simp [verificarLoop]
  | cons navio resto ih =>
    intro stats
    unfold verificarLoop
    by_cases hd : navio.foiDestruido = true
    · have hm : marcarDestruido t navio = navio := by
        simp [marcarDestruido, hd]
      have hn : novoDestruido t navio = false := by
        simp [novoDestruido, hd]
      rw [if_pos hd, ih]
      simp [hm, hn, List.countP_cons]
    · have hd' : navio.foiDestruido = false := by
        cases h : navio.foiDestruido
        · rfl
        · exact absurd h hd
      rw [if_neg hd]
      by_cases hp : partesAtingidas t navio.inicio navio.orientacao navio.tamanho
          = navio.tamanho
      · have haf : navioAfundado t navio = true :=
          partesAtingidas_eq_tamanho_iff.mp hp
        have hm : marcarDestruido t navio = { navio with foiDestruido := true } := by
          simp [marcarDestruido, hd', haf]
        have hn : novoDestruido t navio = true := by
          simp [novoDestruido, hd', haf]
        rw [if_pos hp, ih]
        simp only [hm, hn, List.map_cons, List.countP_cons, Prod.mk.injEq,
          EstatisticasJogo.mk.injEq, if_pos rfl, and_true, true_and]
        push_cast
        ring
      · have haf : navioAfundado t navio = false := by
          cases h : navioAfundado t navio
          · rfl
          · exact absurd (partesAtingidas_eq_tamanho_iff.mpr h) hp
        have hm : marcarDestruido t navio = navio := by
          simp [marcarDestruido, haf]
        have hn : novoDestruido t navio = false := by
          simp [novoDestruido, haf]
        rw [if_neg hp, ih]
        simp [hm, hn, List.countP_cons]

lemma navioAfundado_marcar (t : Tabuleiro) (navio : Navio) :
    navioAfundado t (marcarDestruido t navio) = navioAfundado t navio := by
  unfold marcarDestruido
  split <;> rfl

lemma marcarDestruido_idem (t : Tabuleiro) (navio : Navio) :
    marcarDestruido t (marcarDestruido t navio) = marcarDestruido t navio := by
  obtain ⟨ini, tam, ori, idn, fd⟩ := navio
  cases fd
  · cases haf : navioAfundado t ⟨ini, tam, ori, idn, false⟩
    · simp [marcarDestruido, haf]
    · simp [marcarDestruido, haf]
  · simp [marcarDestruido]

lemma novoDestruido_marcar (t : Tabuleiro) (navio : Navio) :
    novoDestruido t (marcarDestruido t navio) = false := by
  obtain ⟨ini, tam, ori, idn, fd⟩ := navio
  cases fd
  · cases haf : navioAfundado t ⟨ini, tam, ori, idn, false⟩
    · simp [marcarDestruido, novoDestruido, haf]
    · simp [marcarDestruido, novoDestruido, haf]
  · simp [marcarDestruido, novoDestruido]

lemma countP_novoDestruido_marcar (t : Tabuleiro) (navios : List Navio) :
    (navios.map (marcarDestruido t)).countP (novoDestruido t) = 0 := by
  refine List.countP_eq_zero.mpr fun a ha => ?_
  rcases List.mem_map.mp ha with ⟨n, _, rfl⟩
  simp [novoDestruido_marcar]

lemma map_marcarDestruido_idem (t : Tabuleiro) (navios : List Navio) :
    (navios.map (marcarDestruido t)).map (marcarDestruido t)
      = navios.map (marcarDestruido t) := by
  induction navios with
  | nil => rfl
  | cons navio resto ih => simp [ih, marcarDestruido_idem]

/-! ### Attack-application lemmas -/

lemma aplicarCelula_nao_atirada {habilidade : Habilidade} {cl cc : Int}
    {ij : Nat × Nat} (h : celulaAtirada habilidade cl cc ij = false)
    (st : ResultadoCelulas) : aplicarCelula habilidade cl cc st ij = st := by
  unfold aplicarCelula
  by_cases h1 : habilidade ij.1 ij.2 = areaAfetada
  · have h2 : coordenadaValida (linhaAbsoluta cl ij.1) (colunaAbsoluta cc ij.2)
        = false := by
      simpa [celulaAtirada, h1] using h
    rw [if_pos h1, if_neg (by simp [h2])]
  · rw [if_neg h1]

lemma aplicarCelula_atirada_tiros {habilidade : Habilidade} {cl cc : Int}
    {ij : Nat × Nat} (h : celulaAtirada habilidade cl cc ij = true)
    (st : ResultadoCelulas) :
    (aplicarCelula habilidade cl cc st ij).tiros = st.tiros + 1 := by
  obtain ⟨h1, h2⟩ : habilidade ij.1 ij.2 = areaAfetada ∧
      coordenadaValida (linhaAbsoluta cl ij.1) (colunaAbsoluta cc ij.2) = true := by
    simpa [celulaAtirada] using h
  unfold aplicarCelula
  rw [if_pos h1, if_pos h2]
  split
  · rfl
  · split
    · rfl
    · rfl

lemma aplicarCelula_atirada_acertos {habilidade : Habilidade} {cl cc : Int}
    {ij : Nat × Nat} (h : celulaAtirada habilidade cl cc ij = true)
    (st : ResultadoCelulas) :
    (aplicarCelula habilidade cl cc st ij).acertos =
      st.acertos +
        (if st.tabuleiro (linhaAbsoluta cl ij.1) (colunaAbsoluta cc ij.2)
            = posicaoNavio then 1 else 0) := by
  obtain ⟨h1, h2⟩ : habilidade ij.1 ij.2 = areaAfetada ∧
      coordenadaValida (linhaAbsoluta cl ij.1) (colunaAbsoluta cc ij.2) = true := by
    simpa [celulaAtirada] using h
  unfold aplicarCelula
  rw [if_pos h1, if_pos h2]
  by_cases hn : st.tabuleiro (linhaAbsoluta cl ij.1) (colunaAbsoluta cc ij.2)
      = posicaoNavio
  · rw [if_pos hn, if_pos hn]
  · rw [if_neg hn, if_neg hn]
    split
    · simp
    · simp

lemma aplicarCelula_atirada_tab {habilidade : Habilidade} {cl cc : Int}
    {ij : Nat × Nat} (h : celulaAtirada habilidade cl cc ij = true)
    (st : ResultadoCelulas) (l c : Int) :
    (aplicarCelula habilidade cl cc st ij).tabuleiro l c =
      if l = linhaAbsoluta cl ij.1 ∧ c = colunaAbsoluta cc ij.2 then
        transicaoTiro
          (st.tabuleiro (linhaAbsoluta cl ij.1) (colunaAbsoluta cc ij.2))
      else st.tabuleiro l c := by
  obtain ⟨h1, h2⟩ : habilidade ij.1 ij.2 = areaAfetada ∧
      coordenadaValida (linhaAbsoluta cl ij.1) (colunaAbsoluta cc ij.2) = true := by
    simpa [celulaAtirada] using h
  unfold aplicarCelula
  rw [if_pos h1, if_pos h2]
  by_cases hn : st.tabuleiro (linhaAbsoluta cl ij.1) (colunaAbsoluta cc ij.2)
      = posicaoNavio
  · rw [if_pos hn]
    unfold escreverCelula transicaoTiro
    rw [if_pos hn]
  · rw [if_neg hn]
    by_cases hv : st.tabuleiro (linhaAbsoluta cl ij.1) (colunaAbsoluta cc ij.2)
        = posicaoVazia
    · rw [if_pos hv]
      unfold escreverCelula transicaoTiro
      rw [if_neg hn, if_pos hv]
    · rw [if_neg hv]
      unfold transicaoTiro
      rw [if_neg hn, if_neg hv]
      split
      · rename_i he
        rw [he.1, he.2]
      · rfl

lemma foldCelulas_spec (habilidade : Habilidade) (cl cc : Int) (t : Tabuleiro) :
    ∀ L : List (Nat × Nat), L.Nodup →
    ∀ st : ResultadoCelulas,
    (∀ p ∈ L, celulaAtirada habilidade cl cc p = true →
      st.tabuleiro (linhaAbsoluta cl p.1) (colunaAbsoluta cc p.2)
        = t (linhaAbsoluta cl p.1) (colunaAbsoluta cc p.2)) →
    (L.foldl (aplicarCelula habilidade cl cc) st).tiros
        = st.tiros + (L.countP (celulaAtirada habilidade cl cc) : Int) ∧
    (L.foldl (aplicarCelula habilidade cl cc) st).acertos
        = st.acertos + (L.countP (celulaAcerto t habilidade cl cc) : Int) ∧
    ∀ l c : Int, (L.foldl (aplicarCelula habilidade cl cc) st).tabuleiro l c
        = if L.any (cobreCelula habilidade cl cc l c) = true
          then transicaoTiro (t l c) else st.tabuleiro l c := by
  intro L
  induction L with
  | nil =>
    intro _ st _
    exact ⟨by simp, by simp, fun l c => by simp⟩
  | cons ij L ih =>
    intro hnd st hinv
    obtain ⟨hnotmem, hndL⟩ := List.nodup_cons.mp hnd
    by_cases ha : celulaAtirada habilidade cl cc ij = true
    · have hla : st.tabuleiro (linhaAbsoluta cl ij.1) (colunaAbsoluta cc ij.2)
          = t (linhaAbsoluta cl ij.1) (colunaAbsoluta cc ij.2) :=
        hinv ij (List.mem_cons_self ij L) ha
      have htr := aplicarCelula_atirada_tiros ha st
      have hac := aplicarCelula_atirada_acertos ha st
      have htb := aplicarCelula_atirada_tab ha st
      have hinv1 : ∀ p ∈ L, celulaAtirada habilidade cl cc p = true →
          (aplicarCelula habilidade cl cc st ij).tabuleiro
              (linhaAbsoluta cl p.1) (colunaAbsoluta cc p.2)
            = t (linhaAbsoluta cl p.1) (colunaAbsoluta cc p.2) := by
        intro p hp hq
        rw [htb]
        rw [if_neg ?_]
        · exact hinv p (List.mem_cons_of_mem _ hp) hq
        · rintro ⟨e1, e2⟩
          have hp1 : p.1 = ij.1 := by
            simp only [linhaAbsoluta] at e1
            omega
          have hp2 : p.2 = ij.2 := by
            simp only [colunaAbsoluta] at e2
            omega
          exact hnotmem (by
            have : p = ij := Prod.ext hp1 hp2
            rwa [← this])
      obtain ⟨h1, h2, h3⟩ := ih hndL (aplicarCelula habilidade cl cc st ij) hinv1
      refine ⟨?_, ?_, ?_⟩
      · rw [List.foldl_cons, h1, htr, List.countP_cons, ha, if_pos rfl]
        push_cast
        ring
      · rw [List.foldl_cons, h2, hac, hla, List.countP_cons]
        by_cases hnav : t (linhaAbsoluta cl ij.1) (colunaAbsoluta cc ij.2)
            = posicaoNavio
        · have hct : celulaAcerto t habilidade cl cc ij = true := by
            simp [celulaAcerto, ha, hnav]
          rw [if_pos hnav, hct, if_pos rfl]
          push_cast
          ring
        · have hcf : celulaAcerto t habilidade cl cc ij = false := by
            simp [celulaAcerto, ha, hnav]
          rw [if_neg hnav, hcf, if_neg (by simp)]
          push_cast
          ring
      · intro l c
        rw [List.foldl_cons, h3 l c, List.any_cons]
        by_cases hcov : cobreCelula habilidade cl cc l c ij = true
        · obtain ⟨hl, hc⟩ : linhaAbsoluta cl ij.1 = l ∧ colunaAbsoluta cc ij.2 = c := by
            simpa [cobreCelula, ha] using hcov
          by_cases hLany : L.any (cobreCelula habilidade cl cc l c) = true
          · rw [if_pos hLany, if_pos (by simp [hcov])]
          · rw [if_neg hLany, htb l c, if_pos ⟨hl.symm, hc.symm⟩, hla, hl, hc,
              if_pos (by simp [hcov])]
        · have hcov' : cobreCelula habilidade cl cc l c ij = false := by
            cases hq : cobreCelula habilidade cl cc l c ij
            · rfl
            · exact absurd hq hcov
          by_cases hLany : L.any (cobreCelula habilidade cl cc l c) = true
          · rw [if_pos hLany, if_pos (by simp [hcov', hLany])]
          · have hLany' : L.any (cobreCelula habilidade cl cc l c) = false := by
              cases hq : L.any (cobreCelula habilidade cl cc l c)
              · rfl
              · exact absurd hq hLany
            have hnotla : ¬(l = linhaAbsoluta cl ij.1 ∧ c = colunaAbsoluta cc ij.2) := by
              rintro ⟨rfl, rfl⟩
              exact hcov (by simp [cobreCelula, ha])
            rw [if_neg hLany, htb l c, if_neg hnotla,
              if_neg (by simp [hcov', hLany'])]
    · have ha' : celulaAtirada habilidade cl cc ij = false := by
        cases hq : celulaAtirada habilidade cl cc ij
        · rfl
        · exact absurd hq ha
      have hstep := aplicarCelula_nao_atirada ha' st
      have hach : celulaAcerto t habilidade cl cc ij = false := by
        simp [celulaAcerto, ha']
      have hcovf : ∀ l c : Int, cobreCelula habilidade cl cc l c ij = false := by
        intro l c
        simp [cobreCelula, ha']
      obtain ⟨h1, h2, h3⟩ := ih hndL st
        (fun p hp hq => hinv p (List.mem_cons_of_mem _ hp) hq)
      refine ⟨?_, ?_, ?_⟩
      · rw [List.foldl_cons, hstep, h1, List.countP_cons, ha', if_neg (by simp)]
        push_cast
        ring
      · rw [List.foldl_cons, hstep, h2, List.countP_cons, hach, if_neg (by simp)]
        push_cast
        ring
      · intro l c
        rw [List.foldl_cons, hstep, h3 l c, List.any_cons, hcovf l c,
          Bool.false_or]

lemma celulasHabilidade_nodup : celulasHabilidade.Nodup := by decide

lemma mem_celulasHabilidade {ij : Nat × Nat} :
    ij ∈ celulasHabilidade ↔ ij.1 < tamanhoHabilidade ∧ ij.2 < tamanhoHabilidade := by
  obtain ⟨i, j⟩ := ij
  simp [celulasHabilidade, List.mem_flatMap, List.mem_map, List.mem_range]

lemma loopCelulas_tiros (t : Tabuleiro) (habilidade : Habilidade) (cl cc : Int) :
    (loopCelulas t habilidade cl cc).tiros
      = (celulasHabilidade.countP (celulaAtirada habilidade cl cc) : Int) := by
  have h := (foldCelulas_spec habilidade cl cc t celulasHabilidade
    celulasHabilidade_nodup { tabuleiro := t, acertos := 0, tiros := 0 }
    (fun p _ _ => rfl)).1
  simpa [loopCelulas] using h

lemma loopCelulas_acertos (t : Tabuleiro) (habilidade : Habilidade) (cl cc : Int) :
    (loopCelulas t habilidade cl cc).acertos
      = (celulasHabilidade.countP (celulaAcerto t habilidade cl cc) : Int) := by
  have h := (foldCelulas_spec habilidade cl cc t celulasHabilidade
    celulasHabilidade_nodup { tabuleiro := t, acertos := 0, tiros := 0 }
    (fun p _ _ => rfl)).2.1
  simpa [loopCelulas] using h

lemma loopCelulas_tab (t : Tabuleiro) (habilidade : Habilidade) (cl cc : Int)
    (l c : Int) :
    (loopCelulas t habilidade cl cc).tabuleiro l c
      = if celulasHabilidade.any (cobreCelula habilidade cl cc l c) = true
        then transicaoTiro (t l c) else t l c := by
  have h := (foldCelulas_spec habilidade cl cc t celulasHabilidade
    celulasHabilidade_nodup { tabuleiro := t, acertos := 0, tiros := 0 }
    (fun p _ _ => rfl)).2.2 l c
  simpa [loopCelulas] using h

lemma verificacaoPosAtaque_fields (t : Tabuleiro) (habilidade : Habilidade)
    (cl cc : Int) (navios : List Navio) (stats : EstatisticasJogo) :
    (verificacaoPosAtaque t habilidade cl cc navios stats).2.totalTiros
        = stats.totalTiros ∧
    (verificacaoPosAtaque t habilidade cl cc navios stats).2.acertos
        = stats.acertos ∧
    (verificacaoPosAtaque t habilidade cl cc navios stats).2.erros
        = stats.erros := by
  unfold verificacaoPosAtaque
  split
  · rw [show (verificarNaviosDestruidos
          (loopCelulas t habilidade cl cc).tabuleiro navios stats).2
        = verificarLoop (loopCelulas t habilidade cl cc).tabuleiro navios stats
        from rfl,
      verificarLoop_spec]
    exact ⟨rfl, rfl, rfl⟩
  · exact ⟨rfl, rfl, rfl⟩

lemma verificacaoPosAtaque_naviosDestruidos (t : Tabuleiro)
    (habilidade : Habilidade) (cl cc : Int) (navios : List Navio)
    (stats : EstatisticasJogo) :
    stats.naviosDestruidos
      ≤ (verificacaoPosAtaque t habilidade cl cc navios stats).2.naviosDestruidos := by
  unfold verificacaoPosAtaque
  split
  · rw [show (verificarNaviosDestruidos
          (loopCelulas t habilidade cl cc).tabuleiro navios stats).2
        = verificarLoop (loopCelulas t habilidade cl cc).tabuleiro navios stats
        from rfl,
      verificarLoop_spec]
    have hn : (0 : Int) ≤
        (navios.countP (novoDestruido (loopCelulas t habilidade cl cc).tabuleiro) : Int) := by
      positivity
    exact le_add_of_nonneg_right hn
  · exact le_refl _

lemma celulaAcerto_imp_atirada (t : Tabuleiro) (habilidade : Habilidade)
    (cl cc : Int) :
    ∀ p ∈ celulasHabilidade, celulaAcerto t habilidade cl cc p = true →
      celulaAtirada habilidade cl cc p = true := by
  intro p _ hq
  have := Bool.and_eq_true _ _ |>.mp hq
  exact this.1

/-! ### The claims -/

/-- Claim C1: for every attack application, the per-turn shot counter counts
exactly the affected pattern cells whose absolute coordinate is in bounds
(out-of-bounds cells are skipped and not counted), the per-turn hit counter
counts exactly the covered cells that held `Ship`, and the resulting board
equals the original with exactly the covered cells transformed by
`Ship→Hit`, `Empty→HitWater`, anything else unchanged; non-covered cells are
untouched. -/
theorem claim_C1 (t : Tabuleiro) (habilidade : Habilidade)
    (centroLinha centroColuna : Int) (navios : List Navio)
    (stats : EstatisticasJogo) :
    (loopCelulas t habilidade centroLinha centroColuna).tiros
        = (celulasHabilidade.countP
            (celulaAtirada habilidade centroLinha centroColuna) : Int) ∧
    (loopCelulas t habilidade centroLinha centroColuna).acertos
        = (celulasHabilidade.countP
            (celulaAcerto t habilidade centroLinha centroColuna) : Int) ∧
    ∀ l c : Int,
      (aplicarHabilidadeNoTabuleiro t habilidade centroLinha centroColuna
          navios stats).1 l c
        = if celulasHabilidade.any
              (cobreCelula habilidade centroLinha centroColuna l c) = true
          then transicaoTiro (t l c) else t l c :=
  ⟨loopCelulas_tiros t habilidade centroLinha centroColuna,
   loopCelulas_acertos t habilidade centroLinha centroColuna,
   fun l c => loopCelulas_tab t habilidade centroLinha centroColuna l c⟩

/-- Board used by claim C2's counterexample: a ship cell already at (0,9). -/
def tabuleiroCexC2 : Tabuleiro := escreverCelula tabuleiroVazio 0 9 posicaoNavio

/-- Ship used by claim C2's counterexample: length 2, horizontal, start (0,9):
its first cell is occupied and its second is out of bounds. -/
def navioCexC2 : Navio :=
  { inicio := { linha := 0, coluna := 9 }, tamanho := 2, orientacao := 'H',
    id := 1, foiDestruido := false }

/-- Claim C2 counterexample: the ship `navioCexC2` has an out-of-bounds
derived coordinate (index 1), yet `posicionarNavio` returns
`ERRO_POSICAO_OCUPADA`, not `ERRO_FORA_LIMITES`: the error is decided by the
first failing coordinate, not by the presence of any out-of-bounds derived
coordinate as the claim states. -/
theorem claim_C2_cex :
    coordenadaValida (coordSeq navioCexC2.inicio navioCexC2.orientacao 1).linha
        (coordSeq navioCexC2.inicio navioCexC2.orientacao 1).coluna = false ∧
    (posicionarNavio tabuleiroCexC2 navioCexC2).1 = erroPosicaoOcupada ∧
    erroPosicaoOcupada ≠ erroForaLimites := by
  refine ⟨by decide, by decide, by decide⟩

/-- Claim C2 (amended): walking the derived coordinates in stepping order, at
the first unavailable coordinate the call fails — with `ERRO_FORA_LIMITES`
when that coordinate is out of bounds and with `ERRO_POSICAO_OCUPADA` when it
is in bounds but non-empty — and in either failure case the returned board is
exactly the input board. -/
theorem claim_C2 (t : Tabuleiro) (navio : Navio) (k : Nat)
    (hk : k < navio.tamanho)
    (hprev : ∀ m, m < k →
      posicaoDisponivel t (coordSeq navio.inicio navio.orientacao m).linha
        (coordSeq navio.inicio navio.orientacao m).coluna = true)
    (hfail : posicaoDisponivel t (coordSeq navio.inicio navio.orientacao k).linha
        (coordSeq navio.inicio navio.orientacao k).coluna = false) :
    (coordenadaValida (coordSeq navio.inicio navio.orientacao k).linha
        (coordSeq navio.inicio navio.orientacao k).coluna = false →
      posicionarNavio t navio = (erroForaLimites, t)) ∧
    (coordenadaValida (coordSeq navio.inicio navio.orientacao k).linha
        (coordSeq navio.inicio navio.orientacao k).coluna = true →
      t (coordSeq navio.inicio navio.orientacao k).linha
          (coordSeq navio.inicio navio.orientacao k).coluna ≠ posicaoVazia ∧
      posicionarNavio t navio = (erroPosicaoOcupada, t)) := by
  have hpn : posicionarNavio t navio =
      (if coordenadaValida (coordSeq navio.inicio navio.orientacao k).linha
            (coordSeq navio.inicio navio.orientacao k).coluna
       then erroPosicaoOcupada else erroForaLimites, t) := by
    unfold posicionarNavio
    rw [primeiraFalha_first t navio.orientacao navio.tamanho navio.inicio k hk
      hprev hfail]
  refine ⟨fun hv => ?_, fun hv => ⟨fun hcell => ?_, ?_⟩⟩
  · rw [hpn, if_neg (by simp [hv])]
  · simp only [posicaoDisponivel, Bool.and_eq_true] at hfail
    rw [hv, hcell] at hfail
    simp at hfail
  · rw [hpn, if_pos hv]

/-- Empty-board ship used by witnesses: length 2, horizontal, start (9,9):
its second derived coordinate (9,10) is out of bounds. -/
def navioForaC2 : Navio :=
  { inicio := { linha := 9, coluna := 9 }, tamanho := 2, orientacao := 'H',
    id := 2, foiDestruido := false }

theorem claim_C2_witness :
    posicionarNavio tabuleiroVazio navioForaC2 = (erroForaLimites, tabuleiroVazio) :=
  (claim_C2 tabuleiroVazio navioForaC2 1 (by decide) (by decide) (by decide)).1
    (by decide)

/-- Claim C3: a successful placement writes `POSICAO_NAVIO` at every derived
coordinate of the ship and leaves every other board cell unchanged. -/
theorem claim_C3 (t : Tabuleiro) (navio : Navio)
    (_hor : navio.orientacao = 'H' ∨ navio.orientacao = 'V' ∨
      navio.orientacao = 'D')
    (hsuc : (posicionarNavio t navio).1 = sucesso) :
    (∀ k, k < navio.tamanho →
      (posicionarNavio t navio).2 (coordSeq navio.inicio navio.orientacao k).linha
        (coordSeq navio.inicio navio.orientacao k).coluna = posicaoNavio) ∧
    (∀ l c : Int,
      (∀ k, k < navio.tamanho →
        ¬((coordSeq navio.inicio navio.orientacao k).linha = l ∧
          (coordSeq navio.inicio navio.orientacao k).coluna = c)) →
      (posicionarNavio t navio).2 l c = t l c) := by
  have hnone : primeiraFalha t navio.inicio navio.orientacao navio.tamanho
      = none := by
    rcases primeiraFalha_mem t navio.orientacao navio.tamanho navio.inicio
      with h | h | h
    · exact h
    · exfalso
      unfold posicionarNavio at hsuc
      rw [h] at hsuc
      have h2 : erroPosicaoOcupada = sucesso := hsuc
      exact absurd h2 (by decide)
    · exfalso
      unfold posicionarNavio at hsuc
      rw [h] at hsuc
      have h2 : erroForaLimites = sucesso := hsuc
      exact absurd h2 (by decide)
  have hres : (posicionarNavio t navio).2
      = escreverNavio t navio.inicio navio.orientacao navio.tamanho := by
    unfold posicionarNavio
    rw [hnone]
  rw [hres]
  exact ⟨fun k hk =>
      escreverNavio_mem navio.orientacao navio.tamanho navio.inicio t k hk,
    fun l c hfree =>
      escreverNavio_frame navio.orientacao navio.tamanho navio.inicio t l c hfree⟩

/-- Battleship of the spec's scenario: start (0,0), length 4, horizontal. -/
def navioC3 : Navio :=
  { inicio := { linha := 0, coluna := 0 }, tamanho := 4, orientacao := 'H',
    id := 1, foiDestruido := false }

theorem claim_C3_witness :
    (posicionarNavio tabuleiroVazio navioC3).2
        (coordSeq navioC3.inicio navioC3.orientacao 3).linha
        (coordSeq navioC3.inicio navioC3.orientacao 3).coluna = posicaoNavio ∧
    (posicionarNavio tabuleiroVazio navioC3).2 5 5 = tabuleiroVazio 5 5 :=
  ⟨(claim_C3 tabuleiroVazio navioC3 (Or.inl rfl) (by decide)).1 3 (by decide),
   (claim_C3 tabuleiroVazio navioC3 (Or.inl rfl) (by decide)).2 5 5 (by decide)⟩

/-- Claim C4: the fleet scan leaves the board untouched, marks exactly the
not-yet-destroyed ships whose every derived coordinate shows `Hit` (never
clearing a destroyed flag), adds exactly the number of newly destroyed ships
to `naviosDestruidos` while leaving every other counter unchanged, and a
repeated scan of the same board changes nothing further. -/
theorem claim_C4 (t : Tabuleiro) (navios : List Navio)
    (stats : EstatisticasJogo) :
    verificarNaviosDestruidos t navios stats =
      (t, navios.map (marcarDestruido t),
       { stats with
         naviosDestruidos :=
           stats.naviosDestruidos + navios.countP (novoDestruido t) }) ∧
    verificarNaviosDestruidos t
        (verificarNaviosDestruidos t navios stats).2.1
        (verificarNaviosDestruidos t navios stats).2.2
      = verificarNaviosDestruidos t navios stats := by
  have h1 : verificarNaviosDestruidos t navios stats =
      (t, navios.map (marcarDestruido t),
       { stats with
         naviosDestruidos :=
           stats.naviosDestruidos + navios.countP (novoDestruido t) }) := by
    unfold verificarNaviosDestruidos
    rw [verificarLoop_spec]
  refine ⟨h1, ?_⟩
  rw [h1]
  show verificarNaviosDestruidos t (navios.map (marcarDestruido t)) _ = _
  unfold verificarNaviosDestruidos
  rw [verificarLoop_spec, map_marcarDestruido_idem, countP_novoDestruido_marcar]
  simp

/-- Claim C5: pattern generation is a pure function of the shape — the result
does not depend on the incoming buffer — with the exact fixed masks centered
at local (2,2): Cone affects rows {0:[2], 1:[1,2,3], 2:[0..4]}, Cross affects
all of local row 2 and local column 2, Diamond affects
{(0,2),(1,1),(1,2),(1,3),(2,2)}; the affected-cell totals are Cone 9,
Cross 9, Diamond 5. -/
theorem claim_C5 :
    (∀ m m2 : Habilidade,
      criarHabilidadeCone m = criarHabilidadeCone m2 ∧
      criarHabilidadeCruz m = criarHabilidadeCruz m2 ∧
      criarHabilidadeOctaedro m = criarHabilidadeOctaedro m2) ∧
    (∀ i j : Fin 5,
      (criarHabilidadeCone mascaraInicial i.val j.val = areaAfetada ↔
        (i.val = 0 ∧ j.val = 2) ∨
        (i.val = 1 ∧ (j.val = 1 ∨ j.val = 2 ∨ j.val = 3)) ∨ i.val = 2)) ∧
    (∀ i j : Fin 5,
      (criarHabilidadeCruz mascaraInicial i.val j.val = areaAfetada ↔
        i.val = 2 ∨ j.val = 2)) ∧
    (∀ i j : Fin 5,
      (criarHabilidadeOctaedro mascaraInicial i.val j.val = areaAfetada ↔
        (i.val = 0 ∧ j.val = 2) ∨
        (i.val = 1 ∧ (j.val = 1 ∨ j.val = 2 ∨ j.val = 3)) ∨
        (i.val = 2 ∧ j.val = 2))) ∧
    celulasHabilidade.countP
        (fun ij => decide (criarHabilidadeCone mascaraInicial ij.1 ij.2
          = areaAfetada)) = 9 ∧
    celulasHabilidade.countP
        (fun ij => decide (criarHabilidadeCruz mascaraInicial ij.1 ij.2
          = areaAfetada)) = 9 ∧
    celulasHabilidade.countP
        (fun ij => decide (criarHabilidadeOctaedro mascaraInicial ij.1 ij.2
          = areaAfetada)) = 5 :=
  ⟨fun _ _ => ⟨rfl, rfl, rfl⟩, by decide, by decide, by decide,
   by decide, by decide, by decide⟩

/-- Claim C6: after an attack, `totalTiros` grows by the number of affected
in-bounds pattern cells, `acertos` by the number of covered cells that held
`Ship`, `erros` by their difference (so repeat shots at `Hit`/`HitWater`
cells count as misses), and the fleet re-scan runs exactly when at least one
new hit occurred. -/
theorem claim_C6 (t : Tabuleiro) (habilidade : Habilidade)
    (centroLinha centroColuna : Int) (navios : List Navio)
    (stats : EstatisticasJogo) :
    (aplicarHabilidadeNoTabuleiro t habilidade centroLinha centroColuna
        navios stats).2.2.totalTiros
      = stats.totalTiros
        + (celulasHabilidade.countP
            (celulaAtirada habilidade centroLinha centroColuna) : Int) ∧
    (aplicarHabilidadeNoTabuleiro t habilidade centroLinha centroColuna
        navios stats).2.2.acertos
      = stats.acertos
        + (celulasHabilidade.countP
            (celulaAcerto t habilidade centroLinha centroColuna) : Int) ∧
    (aplicarHabilidadeNoTabuleiro t habilidade centroLinha centroColuna
        navios stats).2.2.erros
      = stats.erros
        + ((celulasHabilidade.countP
              (celulaAtirada habilidade centroLinha centroColuna) : Int)
           - (celulasHabilidade.countP
              (celulaAcerto t habilidade centroLinha centroColuna) : Int)) ∧
    ((aplicarHabilidadeNoTabuleiro t habilidade centroLinha centroColuna
        navios stats).2.1,
     (aplicarHabilidadeNoTabuleiro t habilidade centroLinha centroColuna
        navios stats).2.2.naviosDestruidos)
      = if 0 < (celulasHabilidade.countP
            (celulaAcerto t habilidade centroLinha centroColuna) : Int) then
          ((verificarNaviosDestruidos
              (loopCelulas t habilidade centroLinha centroColuna).tabuleiro
              navios stats).2.1,
           (verificarNaviosDestruidos
              (loopCelulas t habilidade centroLinha centroColuna).tabuleiro
              navios stats).2.2.naviosDestruidos)
        else (navios, stats.naviosDestruidos) := by
  obtain ⟨hT, hA, hE⟩ :=
    verificacaoPosAtaque_fields t habilidade centroLinha centroColuna navios stats
  refine ⟨?_, ?_, ?_, ?_⟩
  · show (verificacaoPosAtaque t habilidade centroLinha centroColuna
        navios stats).2.totalTiros
      + (loopCelulas t habilidade centroLinha centroColuna).tiros = _
    rw [hT, loopCelulas_tiros]
  · show (verificacaoPosAtaque t habilidade centroLinha centroColuna
        navios stats).2.acertos
      + (loopCelulas t habilidade centroLinha centroColuna).acertos = _
    rw [hA, loopCelulas_acertos]
  · show (verificacaoPosAtaque t habilidade centroLinha centroColuna
        navios stats).2.erros
      + ((loopCelulas t habilidade centroLinha centroColuna).tiros
          - (loopCelulas t habilidade centroLinha centroColuna).acertos) = _
    rw [hE, loopCelulas_tiros, loopCelulas_acertos]
  · show ((verificacaoPosAtaque t habilidade centroLinha centroColuna
        navios stats).1,
      (verificacaoPosAtaque t habilidade centroLinha centroColuna
        navios stats).2.naviosDestruidos) = _
    unfold verificacaoPosAtaque
    rw [loopCelulas_acertos]
    split
    · rfl
    · rfl

/-- Claim C7 counterexample: the spec describes the cells hit by the Cross
attack centered at (5,5) as the full row and column through (5,5); but the
cell (5,0) of that set is not covered by the 5×5 pattern — it stays
`POSICAO_VAZIA` instead of becoming `POSICAO_AGUA_ATINGIDA`. -/
theorem claim_C7_cex :
    (aplicarHabilidadeNoTabuleiro tabuleiroVazio habilidadeCruzPadrao 5 5 []
        inicializarEstatisticas).1 5 0 = posicaoVazia ∧
    posicaoVazia ≠ posicaoAguaAtingida := by
  refine ⟨by decide, by decide⟩

lemma cruzPadrao_afetada : ∀ i, i < 5 → ∀ j, j < 5 →
    (habilidadeCruzPadrao i j = areaAfetada ↔ (i = 2 ∨ j = 2)) := by decide

lemma cobre_cruz_55 (l c : Int) :
    celulasHabilidade.any (cobreCelula habilidadeCruzPadrao 5 5 l c) = true ↔
      ((l = 5 ∧ 3 ≤ c ∧ c ≤ 7) ∨ (c = 5 ∧ 3 ≤ l ∧ l ≤ 7)) := by
  rw [List.any_eq_true]
  constructor
  · rintro ⟨ij, hmem, hcov⟩
    obtain ⟨hi, hj⟩ := mem_celulasHabilidade.mp hmem
    rw [show tamanhoHabilidade = 5 from rfl] at hi hj
    simp only [cobreCelula, celulaAtirada, Bool.and_eq_true,
      decide_eq_true_iff] at hcov
    obtain ⟨⟨⟨haf, _⟩, hl⟩, hc⟩ := hcov
    have hcr := (cruzPadrao_afetada ij.1 hi ij.2 hj).mp haf
    simp only [linhaAbsoluta, colunaAbsoluta, tamanhoHabilidade] at hl hc
    omega
  · rintro (⟨hl, hc1, hc2⟩ | ⟨hc, hl1, hl2⟩)
    · refine ⟨(2, (c - 3).toNat), mem_celulasHabilidade.mpr ⟨?_, ?_⟩, ?_⟩
      · show 2 < tamanhoHabilidade
        decide
      · show (c - 3).toNat < tamanhoHabilidade
        show (c - 3).toNat < 5
        omega
      · simp only [cobreCelula, celulaAtirada, Bool.and_eq_true,
          decide_eq_true_iff]
        refine ⟨⟨⟨(cruzPadrao_afetada 2 (by omega) (c - 3).toNat (by omega)).mpr
            (Or.inl rfl), ?_⟩, ?_⟩, ?_⟩
        · rw [coordenadaValida_iff]
          simp only [linhaAbsoluta, colunaAbsoluta, tamanhoHabilidade]
          omega
        · simp only [linhaAbsoluta, tamanhoHabilidade]
          omega
        · simp only [colunaAbsoluta, tamanhoHabilidade]
          omega
    · refine ⟨((l - 3).toNat, 2), mem_celulasHabilidade.mpr ⟨?_, ?_⟩, ?_⟩
      · show (l - 3).toNat < tamanhoHabilidade
        show (l - 3).toNat < 5
        omega
      · show 2 < tamanhoHabilidade
        decide
      · simp only [cobreCelula, celulaAtirada, Bool.and_eq_true,
          decide_eq_true_iff]
        refine ⟨⟨⟨(cruzPadrao_afetada (l - 3).toNat (by omega) 2 (by omega)).mpr
            (Or.inr rfl), ?_⟩, ?_⟩, ?_⟩
        · rw [coordenadaValida_iff]
          simp only [linhaAbsoluta, colunaAbsoluta, tamanhoHabilidade]
          omega
        · simp only [linhaAbsoluta, tamanhoHabilidade]
          omega
        · simp only [colunaAbsoluta, tamanhoHabilidade]
          omega

/-- Claim C7 (amended): the Cross attack centered at (5,5) on an all-empty
board turns exactly the 9 in-pattern cells (5,3..7) ∪ (3..7,5) to
`HitWater`, leaves every other cell `Empty`, and updates the statistics by
+9 shots, +0 hits, +9 misses. -/
theorem claim_C7 :
    (∀ l c : Int,
      (aplicarHabilidadeNoTabuleiro tabuleiroVazio habilidadeCruzPadrao 5 5 []
          inicializarEstatisticas).1 l c
        = if (l = 5 ∧ 3 ≤ c ∧ c ≤ 7) ∨ (c = 5 ∧ 3 ≤ l ∧ l ≤ 7)
          then posicaoAguaAtingida else posicaoVazia) ∧
    (aplicarHabilidadeNoTabuleiro tabuleiroVazio habilidadeCruzPadrao 5 5 []
        inicializarEstatisticas).2.2
      = { naviosDestruidos := 0, totalTiros := 9, acertos := 0, erros := 9 } := by
  constructor
  · intro l c
    have hb : (aplicarHabilidadeNoTabuleiro tabuleiroVazio habilidadeCruzPadrao
        5 5 [] inicializarEstatisticas).1 l c
        = if celulasHabilidade.any
              (cobreCelula habilidadeCruzPadrao 5 5 l c) = true
          then transicaoTiro (tabuleiroVazio l c) else tabuleiroVazio l c :=
      loopCelulas_tab tabuleiroVazio habilidadeCruzPadrao 5 5 l c
    rw [hb]
    by_cases hcond : (l = 5 ∧ 3 ≤ c ∧ c ≤ 7) ∨ (c = 5 ∧ 3 ≤ l ∧ l ≤ 7)
    · rw [if_pos ((cobre_cruz_55 l c).mpr hcond), if_pos hcond]
      rfl
    · rw [if_neg (fun hany => hcond ((cobre_cruz_55 l c).mp hany)),
        if_neg hcond]
      rfl
  · decide

/-- Claim C8: each operation performs only the legal cell transitions —
placement turns only `Empty` cells into `Ship`, an attack turns only `Ship`
into `Hit` and `Empty` into `HitWater`, the fleet scan never writes the
board — and `Hit`/`HitWater` cells are terminal under all three operations. -/
theorem claim_C8 (t : Tabuleiro) (navio : Navio) (habilidade : Habilidade)
    (centroLinha centroColuna : Int) (navios : List Navio)
    (stats : EstatisticasJogo) (l c : Int) :
    ((posicionarNavio t navio).2 l c = t l c ∨
      (t l c = posicaoVazia ∧ (posicionarNavio t navio).2 l c = posicaoNavio)) ∧
    ((aplicarHabilidadeNoTabuleiro t habilidade centroLinha centroColuna
        navios stats).1 l c = t l c ∨
      (t l c = posicaoNavio ∧
        (aplicarHabilidadeNoTabuleiro t habilidade centroLinha centroColuna
          navios stats).1 l c = posicaoAtingida) ∨
      (t l c = posicaoVazia ∧
        (aplicarHabilidadeNoTabuleiro t habilidade centroLinha centroColuna
          navios stats).1 l c = posicaoAguaAtingida)) ∧
    (verificarNaviosDestruidos t navios stats).1 = t ∧
    (t l c = posicaoAtingida ∨ t l c = posicaoAguaAtingida →
      (posicionarNavio t navio).2 l c = t l c ∧
      (aplicarHabilidadeNoTabuleiro t habilidade centroLinha centroColuna
        navios stats).1 l c = t l c ∧
      (verificarNaviosDestruidos t navios stats).1 l c = t l c) := by
  have hplace : (posicionarNavio t navio).2 l c = t l c ∨
      (t l c = posicaoVazia ∧ (posicionarNavio t navio).2 l c = posicaoNavio) := by
    cases hf : primeiraFalha t navio.inicio navio.orientacao navio.tamanho with
    | some erro =>
      have hres : (posicionarNavio t navio).2 = t := by
        unfold posicionarNavio
        rw [hf]
      rw [hres]
      left
      rfl
    | none =>
      have hres : (posicionarNavio t navio).2
          = escreverNavio t navio.inicio navio.orientacao navio.tamanho := by
        unfold posicionarNavio
        rw [hf]
      rw [hres]
      have hall := (primeiraFalha_none_iff t navio.orientacao navio.tamanho
        navio.inicio).mp hf
      by_cases hmem : ∃ k, k < navio.tamanho ∧
          (coordSeq navio.inicio navio.orientacao k).linha = l ∧
          (coordSeq navio.inicio navio.orientacao k).coluna = c
      · obtain ⟨k, hk, hkl, hkc⟩ := hmem
        right
        constructor
        · have hd := hall k hk
          simp only [posicaoDisponivel, Bool.and_eq_true,
            decide_eq_true_iff] at hd
          rw [← hkl, ← hkc]
          exact hd.2
        · have hm := escreverNavio_mem navio.orientacao navio.tamanho
            navio.inicio t k hk
          rw [hkl, hkc] at hm
          exact hm
      · left
        exact escreverNavio_frame navio.orientacao navio.tamanho navio.inicio
          t l c (fun k hk hcon => hmem ⟨k, hk, hcon.1, hcon.2⟩)
  have hattack : (aplicarHabilidadeNoTabuleiro t habilidade centroLinha
        centroColuna navios stats).1 l c = t l c ∨
      (t l c = posicaoNavio ∧
        (aplicarHabilidadeNoTabuleiro t habilidade centroLinha centroColuna
          navios stats).1 l c = posicaoAtingida) ∨
      (t l c = posicaoVazia ∧
        (aplicarHabilidadeNoTabuleiro t habilidade centroLinha centroColuna
          navios stats).1 l c = posicaoAguaAtingida) := by
    have hb : (aplicarHabilidadeNoTabuleiro t habilidade centroLinha
        centroColuna navios stats).1 l c
        = if celulasHabilidade.any
              (cobreCelula habilidade centroLinha centroColuna l c) = true
          then transicaoTiro (t l c) else t l c :=
      loopCelulas_tab t habilidade centroLinha centroColuna l c
    rw [hb]
    by_cases hcv : celulasHabilidade.any
        (cobreCelula habilidade centroLinha centroColuna l c) = true
    · rw [if_pos hcv]
      by_cases hnav : t l c = posicaoNavio
      · right
        left
        exact ⟨hnav, by rw [hnav]; rfl⟩
      · by_cases hvz : t l c = posicaoVazia
        · right
          right
          exact ⟨hvz, by rw [hvz]; rfl⟩
        · left
          unfold transicaoTiro
          rw [if_neg hnav, if_neg hvz]
    · rw [if_neg hcv]
      left
      rfl
  refine ⟨hplace, hattack, rfl, fun hterm => ⟨?_, ?_, ?_⟩⟩
  · rcases hplace with h | h
    · exact h
    · exfalso
      rcases hterm with h2 | h2 <;> rw [h.1] at h2 <;>
        exact absurd h2 (by decide)
  · rcases hattack with h | h | h
    · exact h
    · exfalso
      rcases hterm with h2 | h2 <;> rw [h.1] at h2 <;>
        exact absurd h2 (by decide)
    · exfalso
      rcases hterm with h2 | h2 <;> rw [h.1] at h2 <;>
        exact absurd h2 (by decide)
  · rfl

/-- Board with one already-hit cell at (4,4), used by claim C8's witness. -/
def tabuleiroC8 : Tabuleiro := escreverCelula tabuleiroVazio 4 4 posicaoAtingida

theorem claim_C8_witness :
    (posicionarNavio tabuleiroC8 navioC3).2 4 4 = tabuleiroC8 4 4 ∧
    (aplicarHabilidadeNoTabuleiro tabuleiroC8 habilidadeCruzPadrao 5 5 []
      inicializarEstatisticas).1 4 4 = tabuleiroC8 4 4 ∧
    (verificarNaviosDestruidos tabuleiroC8 [] inicializarEstatisticas).1 4 4
      = tabuleiroC8 4 4 :=
  (claim_C8 tabuleiroC8 navioC3 habilidadeCruzPadrao 5 5 []
    inicializarEstatisticas 4 4).2.2.2 (Or.inl (by decide))

/-- Claim C9: with an orientation outside {H, V, D} the stepping function is
a no-op, so every derived coordinate equals the start; the call fails
without mutating the board, or succeeds writing `POSICAO_NAVIO` only at the
in-bounds start cell — never touching an out-of-bounds cell. -/
theorem claim_C9 (t : Tabuleiro) (navio : Navio)
    (h1 : navio.orientacao ≠ 'H') (h2 : navio.orientacao ≠ 'V')
    (h3 : navio.orientacao ≠ 'D') (hpos : 0 < navio.tamanho) :
    (∀ k, coordSeq navio.inicio navio.orientacao k = navio.inicio) ∧
    ((posicionarNavio t navio).1 ≠ sucesso →
      (posicionarNavio t navio).2 = t) ∧
    ((posicionarNavio t navio).1 = sucesso →
      coordenadaValida navio.inicio.linha navio.inicio.coluna = true ∧
      ∀ l c : Int, (posicionarNavio t navio).2 l c =
        escreverCelula t navio.inicio.linha navio.inicio.coluna posicaoNavio
          l c) := by
  have hprox : proximaCoordenada navio.inicio navio.orientacao = navio.inicio := by
    unfold proximaCoordenada
    rw [if_neg h1, if_neg h2, if_neg h3]
  have hconst : ∀ k, coordSeq navio.inicio navio.orientacao k = navio.inicio := by
    intro k
    induction k with
    | zero => rfl
    | succ k ih => simp [coordSeq, ih, hprox]
  refine ⟨hconst, ?_, ?_⟩
  · intro hfail
    cases hf : primeiraFalha t navio.inicio navio.orientacao navio.tamanho with
    | some erro =>
      unfold posicionarNavio
      rw [hf]
    | none =>
      exfalso
      apply hfail
      unfold posicionarNavio
      rw [hf]
  · intro hsuc
    have hf : primeiraFalha t navio.inicio navio.orientacao navio.tamanho
        = none := by
      rcases primeiraFalha_mem t navio.orientacao navio.tamanho navio.inicio
        with h | h | h
      · exact h
      · exfalso
        unfold posicionarNavio at hsuc
        rw [h] at hsuc
        have h2 : erroPosicaoOcupada = sucesso := hsuc
        exact absurd h2 (by decide)
      · exfalso
        unfold posicionarNavio at hsuc
        rw [h] at hsuc
        have h2 : erroForaLimites = sucesso := hsuc
        exact absurd h2 (by decide)
    have hall := (primeiraFalha_none_iff t navio.orientacao navio.tamanho
      navio.inicio).mp hf
    have hd0 := hall 0 hpos
    simp only [coordSeq, posicaoDisponivel, Bool.and_eq_true,
      decide_eq_true_iff] at hd0
    have hres : (posicionarNavio t navio).2
        = escreverNavio t navio.inicio navio.orientacao navio.tamanho := by
      unfold posicionarNavio
      rw [hf]
    refine ⟨hd0.1, fun l c => ?_⟩
    rw [hres]
    by_cases hcell : navio.inicio.linha = l ∧ navio.inicio.coluna = c
    · obtain ⟨hl2, hc2⟩ := hcell
      rw [← hl2, ← hc2]
      have hm := escreverNavio_mem navio.orientacao navio.tamanho navio.inicio
        t 0 hpos
      simp only [coordSeq] at hm
      rw [hm]
      unfold escreverCelula
      rw [if_pos ⟨rfl, rfl⟩]
    · rw [escreverNavio_frame navio.orientacao navio.tamanho navio.inicio t l c
        (fun k hk hcon => hcell (by rw [hconst k] at hcon; exact hcon))]
      unfold escreverCelula
      rw [if_neg (fun hcon => hcell ⟨hcon.1.symm, hcon.2.symm⟩)]

/-- Ship with the invalid orientation 'X', used by claim C9's witness. -/
def navioC9 : Navio :=
  { inicio := { linha := 2, coluna := 2 }, tamanho := 3, orientacao := 'X',
    id := 3, foiDestruido := false }

theorem claim_C9_witness :
    coordSeq navioC9.inicio navioC9.orientacao 2 = navioC9.inicio ∧
    (posicionarNavio tabuleiroVazio navioC9).2 2 2
      = escreverCelula tabuleiroVazio 2 2 posicaoNavio 2 2 := by
  have h := claim_C9 tabuleiroVazio navioC9 (by decide) (by decide) (by decide)
    (by decide)
  exact ⟨h.1 2, (h.2.2 (by decide)).2 2 2⟩

/-- The statistics invariant of claim C10: counters non-negative and hits
plus misses equal total shots. -/
def estatisticasValidas (stats : EstatisticasJogo) : Prop :=
  0 ≤ stats.naviosDestruidos ∧ 0 ≤ stats.totalTiros ∧ 0 ≤ stats.acertos ∧
  0 ≤ stats.erros ∧ stats.acertos + stats.erros = stats.totalTiros

/-- Claim C10: initialized statistics satisfy the invariant
`acertos + erros = totalTiros` with all counters non-negative, and both the
attack application and the fleet scan preserve the invariant while never
decreasing any counter (`posicionarNavio` does not touch the statistics at
all). -/
theorem claim_C10 :
    estatisticasValidas inicializarEstatisticas ∧
    (∀ (t : Tabuleiro) (habilidade : Habilidade)
        (centroLinha centroColuna : Int) (navios : List Navio)
        (stats : EstatisticasJogo),
      estatisticasValidas stats →
      estatisticasValidas
          (aplicarHabilidadeNoTabuleiro t habilidade centroLinha centroColuna
            navios stats).2.2 ∧
      stats.naviosDestruidos ≤
        (aplicarHabilidadeNoTabuleiro t habilidade centroLinha centroColuna
          navios stats).2.2.naviosDestruidos ∧
      stats.totalTiros ≤
        (aplicarHabilidadeNoTabuleiro t habilidade centroLinha centroColuna
          navios stats).2.2.totalTiros ∧
      stats.acertos ≤
        (aplicarHabilidadeNoTabuleiro t habilidade centroLinha centroColuna
          navios stats).2.2.acertos ∧
      stats.erros ≤
        (aplicarHabilidadeNoTabuleiro t habilidade centroLinha centroColuna
          navios stats).2.2.erros) ∧
    (∀ (t : Tabuleiro) (navios : List Navio) (stats : EstatisticasJogo),
      estatisticasValidas stats →
      estatisticasValidas (verificarNaviosDestruidos t navios stats).2.2 ∧
      stats.naviosDestruidos ≤
        (verificarNaviosDestruidos t navios stats).2.2.naviosDestruidos ∧
      stats.totalTiros ≤
        (verificarNaviosDestruidos t navios stats).2.2.totalTiros ∧
      stats.acertos ≤ (verificarNaviosDestruidos t navios stats).2.2.acertos ∧
      stats.erros ≤ (verificarNaviosDestruidos t navios stats).2.2.erros) := by
  refine ⟨⟨le_refl 0, le_refl 0, le_refl 0, le_refl 0, rfl⟩, ?_, ?_⟩
  · intro t habilidade centroLinha centroColuna navios stats hv
    obtain ⟨hT, hA, hE⟩ :=
      verificacaoPosAtaque_fields t habilidade centroLinha centroColuna
        navios stats
    have hnd := verificacaoPosAtaque_naviosDestruidos t habilidade centroLinha
      centroColuna navios stats
    have hmono : celulasHabilidade.countP
          (celulaAcerto t habilidade centroLinha centroColuna)
        ≤ celulasHabilidade.countP
          (celulaAtirada habilidade centroLinha centroColuna) :=
      List.countP_mono_left
        (celulaAcerto_imp_atirada t habilidade centroLinha centroColuna)
    have e0 : (aplicarHabilidadeNoTabuleiro t habilidade centroLinha
          centroColuna navios stats).2.2.naviosDestruidos
        = (verificacaoPosAtaque t habilidade centroLinha centroColuna navios
            stats).2.naviosDestruidos := rfl
    have e1 : (aplicarHabilidadeNoTabuleiro t habilidade centroLinha
          centroColuna navios stats).2.2.totalTiros
        = (verificacaoPosAtaque t habilidade centroLinha centroColuna navios
            stats).2.totalTiros
          + (loopCelulas t habilidade centroLinha centroColuna).tiros := rfl
    have e2 : (aplicarHabilidadeNoTabuleiro t habilidade centroLinha
          centroColuna navios stats).2.2.acertos
        = (verificacaoPosAtaque t habilidade centroLinha centroColuna navios
            stats).2.acertos
          + (loopCelulas t habilidade centroLinha centroColuna).acertos := rfl
    have e3 : (aplicarHabilidadeNoTabuleiro t habilidade centroLinha
          centroColuna navios stats).2.2.erros
        = (verificacaoPosAtaque t habilidade centroLinha centroColuna navios
            stats).2.erros
          + ((loopCelulas t habilidade centroLinha centroColuna).tiros
              - (loopCelulas t habilidade centroLinha centroColuna).acertos) :=
      rfl
    have hti := loopCelulas_tiros t habilidade centroLinha centroColuna
    have hac := loopCelulas_acertos t habilidade centroLinha centroColuna
    unfold estatisticasValidas at hv ⊢
    rw [e0, e1, e2, e3, hT, hA, hE, hti, hac]
    omega
  · intro t navios stats hv
    have hver : (verificarNaviosDestruidos t navios stats).2.2
        = { stats with
            naviosDestruidos :=
              stats.naviosDestruidos + navios.countP (novoDestruido t) } := by
      show (verificarLoop t navios stats).2 = _
      rw [verificarLoop_spec]
    unfold estatisticasValidas at hv ⊢
    rw [hver]
    have hc : (0 : Int) ≤ (navios.countP (novoDestruido t) : Int) := by
      positivity
    simp only []
    omega

theorem claim_C10_witness :
    estatisticasValidas
      (aplicarHabilidadeNoTabuleiro tabuleiroVazio habilidadeCruzPadrao 5 5 []
        inicializarEstatisticas).2.2 :=
  (claim_C10.2.1 tabuleiroVazio habilidadeCruzPadrao 5 5 []
    inicializarEstatisticas ⟨le_refl 0, le_refl 0, le_refl 0, le_refl 0, rfl⟩).1

end BatalhaNaval
